import Mathlib

/-!
Shallow embedding of the SpeakFlow content-planner (an Express + PostgreSQL
CRUD server, `src/server.js`, plus a browser view layer, `src/public/app.js`).

Conventions of the embedding:
* A stored table row of `sf_articles` is a `Row`; nullable columns are
  `Option`-valued, `NOT NULL` columns are plain.  Timestamps are modelled as
  abstract `Nat` ticks; every route receives the current tick as `now`.
* The pair "`pool` exists and `dbReady`" is one Boolean `ready` parameter.
* An HTTP response is `HResp`: `.ok v` is `res.json(v)` (HTTP 200),
  `.err code msg` is `res.status(code).json({error: msg})`.
* JavaScript `undefined` vs `null` vs a value is `JVal` where the distinction
  matters (PATCH bodies); both `undefined` and `null` are serialised to SQL
  NULL by the pg driver, which `JVal.toSql` captures.
* SQL `COALESCE` is `coalesce` on `Option`; the JS `||` default on strings is
  `jsOrStr` (empty string is falsy).
* Of the column constraints we model the `NOT NULL`s (`article_id`, `title`)
  and the `VARCHAR(10)` length bound on `article_id`; the remaining length
  bounds behave identically for the properties below.
-/

namespace SpeakFlow

/-- SQL `COALESCE(a, b)` on nullable values. -/
def coalesce {α : Type} (a b : Option α) : Option α :=
  match a with
  | some x => some x
  | none => b

/-- JavaScript `a || b` on strings: the empty string is falsy. -/
def jsOrStr (a b : String) : String :=
  if a = "" then b else a

/-- A JavaScript value that may be `undefined`, `null`, or present. -/
inductive JVal (α : Type) where
  | undef : JVal α
  | jnull : JVal α
  | val : α → JVal α
deriving DecidableEq, Repr

/-- The pg driver serialises both `undefined` and `null` as SQL NULL. -/
def JVal.toSql {α : Type} : JVal α → Option α
  | .undef => none
  | .jnull => none
  | .val a => some a

/-- An HTTP response: `.ok` is `res.json(v)` (status 200), `.err` is
`res.status(code).json({error: msg})`. -/
inductive HResp (α : Type) where
  | ok : α → HResp α
  | err : Nat → String → HResp α
deriving DecidableEq, Repr

/-- One row of the `sf_articles` table (`CREATE TABLE` in `initDB`):
`id SERIAL PRIMARY KEY`, `article_id VARCHAR(10) UNIQUE NOT NULL`,
`title TEXT NOT NULL`, the nullable descriptive columns, `status` with
default `'planned'`, `notes`, and the two timestamps. -/
structure Row where
  id : Nat
  article_id : String
  title : String
  keyword : Option String
  intent : Option String
  funnel : Option String
  description : Option String
  priority : Option String
  word_count : Option Int
  category : Option String
  week : Option Int
  status : Option String
  notes : Option String
  created_at : Nat
  updated_at : Nat
deriving DecidableEq, Repr

/-- The store: the table contents plus the next value of the `SERIAL`
sequence backing `id`. -/
structure DB where
  rows : List Row
  nextId : Nat
deriving DecidableEq, Repr

/-! ### GET /api/articles (List) -/

/-- Lexicographic `≤` on char lists (code-point order, as in a C collation). -/
def charListLE : List Char → List Char → Bool
  | [], _ => true
  | _ :: _, [] => false
  | a :: as, b :: bs =>
    if a = b then charListLE as bs else decide (a < b)

/-- `ORDER BY week, article_id` row comparison: ascending `week` with SQL
NULLS LAST, ties broken by `article_id`. -/
def rowLE (a b : Row) : Bool :=
  match a.week, b.week with
  | none, none => charListLE a.article_id.data b.article_id.data
  | none, some _ => false
  | some _, none => true
  | some wa, some wb =>
    if wa = wb then charListLE a.article_id.data b.article_id.data
    else decide (wa < wb)

/-- Route `GET /api/articles`: `[]` when the store is unready, otherwise all rows
ordered by `(week, article_id)`. -/
def listEndpoint (ready : Bool) (db : DB) : HResp (List Row) :=
  if !ready then .ok []
  else .ok (db.rows.mergeSort rowLE)

/-! ### GET /api/articles/:id -/

/-- Route `GET /api/articles/:id`: 503 when unready, 404 when no row has the id. -/
def getEndpoint (ready : Bool) (db : DB) (pid : Nat) : HResp Row :=
  if !ready then .err 503 "Database not available"
  else
    match db.rows.find? (fun r => r.id = pid) with
    | none => .err 404 "Article not found"
    | some r => .ok r

/-! ### POST /api/articles (Upsert) -/

/-- The request body of `POST /api/articles` as destructured by the route
(absent fields are `undefined`; the driver maps them to SQL NULL, so plain
`Option` suffices for every field except `status`, which first passes
through `status || 'planned'` — captured by `statusParam`). -/
structure UpsertBody where
  article_id : Option String
  title : Option String
  keyword : Option String
  intent : Option String
  funnel : Option String
  description : Option String
  priority : Option String
  word_count : Option Int
  category : Option String
  week : Option Int
  status : Option String
  notes : Option String
deriving DecidableEq, Repr

/-- The `$11` parameter of the upsert query: `status || 'planned'`.
`undefined`, `null` and `""` are all falsy, so the parameter is never NULL. -/
def statusParam (st : Option String) : String :=
  match st with
  | none => "planned"
  | some s => jsOrStr s "planned"

/-- The `INSERT ... ON CONFLICT (article_id) DO UPDATE` of
`POST /api/articles`.  A fresh `article_id` inserts a new row; a conflicting
one replaces the nine descriptive columns, applies
`status = COALESCE(EXCLUDED.status, sf_articles.status)` and
`notes = COALESCE(EXCLUDED.notes, sf_articles.notes)`, and refreshes
`updated_at`.  Constraint violations (`NOT NULL`, `VARCHAR(10)`) error. -/
def upsertQuery (db : DB) (b : UpsertBody) (now : Nat) :
    Except String (DB × Row) :=
  match b.article_id, b.title with
  | some aid, some t =>
    if aid.length ≤ 10 then
      match db.rows.find? (fun r => r.article_id = aid) with
      | none =>
        let r : Row :=
          { id := db.nextId, article_id := aid, title := t,
            keyword := b.keyword, intent := b.intent, funnel := b.funnel,
            description := b.description, priority := b.priority,
            word_count := b.word_count, category := b.category,
            week := b.week, status := some (statusParam b.status),
            notes := b.notes, created_at := now, updated_at := now }
        .ok (⟨db.rows ++ [r], db.nextId + 1⟩, r)
      | some r =>
        let r' : Row := { r with
          title := t,
          keyword := b.keyword, intent := b.intent, funnel := b.funnel,
          description := b.description, priority := b.priority,
          word_count := b.word_count, category := b.category,
          week := b.week,
          status := coalesce (some (statusParam b.status)) r.status,
          notes := coalesce b.notes r.notes,
          updated_at := now }
        .ok (⟨db.rows.map (fun x => if x.id = r.id then r' else x),
              db.nextId⟩, r')
    else .error "value too long for type character varying(10)"
  | _, _ => .error "null value violates not-null constraint"

/-- Route `POST /api/articles`: 503 when unready, 500 on a write error (state
unchanged), otherwise the upserted row. -/
def upsertEndpoint (ready : Bool) (db : DB) (b : UpsertBody) (now : Nat) :
    DB × HResp Row :=
  if !ready then (db, .err 503 "Database not available")
  else
    match upsertQuery db b now with
    | .ok (db', r) => (db', .ok r)
    | .error e => (db, .err 500 e)

/-! ### PATCH /api/articles/:id -/

/-- The request body of `PATCH /api/articles/:id`; here the JS
`undefined`/`null`/value distinction is kept, since the claim about explicit
nulls is exactly about that distinction collapsing in the driver. -/
structure PatchBody where
  status : JVal String
  notes : JVal String
  week : JVal Int
deriving DecidableEq, Repr

/-- Route `PATCH /api/articles/:id`: `UPDATE sf_articles SET status =
COALESCE($1, status), notes = COALESCE($2, notes), week = COALESCE($3, week),
updated_at = CURRENT_TIMESTAMP WHERE id = $4`; 404 when no row matched,
503 when unready. -/
def patchEndpoint (ready : Bool) (db : DB) (pid : Nat) (b : PatchBody)
    (now : Nat) : DB × HResp Row :=
  if !ready then (db, .err 503 "Database not available")
  else
    match db.rows.find? (fun r => r.id = pid) with
    | none => (db, .err 404 "Article not found")
    | some r =>
      let r' : Row :=
        { r with
          status := coalesce b.status.toSql r.status,
          notes := coalesce b.notes.toSql r.notes,
          week := coalesce b.week.toSql r.week,
          updated_at := now }
      (⟨db.rows.map (fun x => if x.id = pid then r' else x), db.nextId⟩,
        .ok r')

/-! ### DELETE /api/articles/:id -/

/-- Route `DELETE /api/articles/:id`: 503 when unready, otherwise deletes any row
with the id and answers `{success: true}` whether or not one existed. -/
def deleteEndpoint (ready : Bool) (db : DB) (pid : Nat) : DB × HResp Bool :=
  if !ready then (db, .err 503 "Database not available")
  else (⟨db.rows.filter (fun r => r.id ≠ pid), db.nextId⟩, .ok true)

/-! ### POST /api/articles/bulk (BulkUpsert) -/

/-- One element of the `articles` array of `POST /api/articles/bulk`
(the static seed dataset shape: `id`, camelCase `wordCount`). -/
structure BulkRec where
  id : Option String
  title : Option String
  keyword : Option String
  intent : Option String
  funnel : Option String
  description : Option String
  priority : Option String
  wordCount : Option Int
  category : Option String
  week : Option Int
deriving DecidableEq, Repr

/-- Whether the single-record bulk INSERT succeeds: the modelled column
constraints are the two `NOT NULL`s and the `VARCHAR(10)` bound. -/
def bulkRecOk (a : BulkRec) : Bool :=
  match a.id, a.title with
  | some aid, some _ => aid.length ≤ 10
  | _, _ => false

/-- The success action of one iteration of the bulk loop: `INSERT` without
the `status`/`notes` columns (so a fresh row gets the column default
`'planned'` and NULL notes), `ON CONFLICT (article_id) DO UPDATE` of the
nine descriptive columns and `updated_at` only. -/
def bulkStep (now : Nat) (db : DB) (a : BulkRec) : DB :=
  match a.id, a.title with
  | some aid, some t =>
    (match db.rows.find? (fun r => r.article_id = aid) with
     | none =>
       let r : Row :=
         { id := db.nextId, article_id := aid, title := t,
           keyword := a.keyword, intent := a.intent, funnel := a.funnel,
           description := a.description, priority := a.priority,
           word_count := a.wordCount, category := a.category,
           week := a.week, status := some "planned", notes := none,
           created_at := now, updated_at := now }
       ⟨db.rows ++ [r], db.nextId + 1⟩
     | some r =>
       let r' : Row := { r with
         title := t,
         keyword := a.keyword, intent := a.intent, funnel := a.funnel,
         description := a.description, priority := a.priority,
         word_count := a.wordCount, category := a.category,
         week := a.week, updated_at := now }
       ⟨db.rows.map (fun x => if x.id = r.id then r' else x), db.nextId⟩)
  | _, _ => db

/-- One iteration of the bulk loop, with failure. -/
def bulkWrite (now : Nat) (db : DB) (a : BulkRec) : Except String DB :=
  if bulkRecOk a then .ok (bulkStep now db a)
  else .error "bulk insert constraint violation"

/-- The body of the transaction: the `for (const article of articles)` loop
run inside `BEGIN`. -/
def bulkApplyList (db : DB) (l : List BulkRec) (now : Nat) :
    Except String DB :=
  l.foldlM (bulkWrite now) db

/-- Route `POST /api/articles/bulk`: 503 when unready; otherwise the loop runs in a
transaction — `COMMIT` on success with `{success: true, count: N}`, `ROLLBACK`
to the pre-call state and a 500 on any failure. -/
def bulkEndpoint (ready : Bool) (db : DB) (l : List BulkRec) (now : Nat) :
    DB × HResp Nat :=
  if !ready then (db, .err 503 "Database not available")
  else
    match bulkApplyList db l now with
    | .ok db' => (db', .ok l.length)
    | .error e => (db, .err 500 e)

/-! ### GET /api/stats -/

/-- The stats JSON.  The ready branch computes all eight counts; the unready
branch answers the literal `{total: 0, high_priority: 0, medium_priority: 0,
low_priority: 0}`, which carries no status counts — hence the four status
fields are `Option`-valued. -/
structure StatsJson where
  total : Nat
  high_priority : Nat
  medium_priority : Nat
  low_priority : Nat
  planned : Option Nat
  in_progress : Option Nat
  written : Option Nat
  published : Option Nat
deriving DecidableEq, Repr

/-- Route `GET /api/stats`: the unready literal, or the eight aggregate counts
(`COUNT(*)` and `COUNT(*) FILTER (WHERE ...)`, which never error). -/
def statsEndpoint (ready : Bool) (db : DB) : HResp StatsJson :=
  if !ready then .ok ⟨0, 0, 0, 0, none, none, none, none⟩
  else
    .ok
      { total := db.rows.length,
        high_priority := db.rows.countP (fun r => r.priority = some "High"),
        medium_priority :=
          db.rows.countP (fun r => r.priority = some "Medium"),
        low_priority := db.rows.countP (fun r => r.priority = some "Low"),
        planned :=
          some (db.rows.countP (fun r => r.status = some "planned")),
        in_progress :=
          some (db.rows.countP (fun r => r.status = some "in_progress")),
        written :=
          some (db.rows.countP (fun r => r.status = some "written")),
        published :=
          some (db.rows.countP (fun r => r.status = some "published")) }

/-!
## The view layer (`src/public/app.js`)

View records are the JSON rows served by the API, i.e. `Row`.  (The static
fallback dataset's camelCase `wordCount` / `id` aliases collapse onto the
single `word_count` / `article_id` fields of `Row`; every template reads
them through the same `a || b` fallbacks, so nothing below depends on the
difference.)  JavaScript string coercions used by the templates:
`${x}` renders `null` as `"null"` and `undefined` as `"undefined"`;
object indexing coerces a `null` key to the string `"null"`.
-/

/-- JavaScript `String.prototype.toLowerCase` (ASCII case mapping). -/
def lowerStr (s : String) : String :=
  String.mk (s.data.map Char.toLower)

/-- Whether the second list is a prefix of the first. -/
def startsWithL : List Char → List Char → Bool
  | _, [] => true
  | [], _ :: _ => false
  | a :: as, b :: bs => a = b && startsWithL as bs

/-- Whether the second list occurs as a contiguous run inside the first. -/
def containsL : List Char → List Char → Bool
  | [], needle => needle.isEmpty
  | h :: t, needle => startsWithL (h :: t) needle || containsL t needle

/-- JavaScript `hay.includes(needle)` on strings (substring test). -/
def jsIncludes (hay needle : String) : Bool :=
  containsL hay.data needle.data

/-- JavaScript `x || d` where `x` is a possibly-null/undefined string. -/
def jsOrOpt (o : Option String) (d : String) : String :=
  match o with
  | none => d
  | some s => jsOrStr s d

/-- Template interpolation `${x}` of a nullable row field (`null` prints
as `"null"`). -/
def fieldStr (o : Option String) : String := o.getD "null"

/-- Template interpolation `${x}` of a nullable integer field. -/
def fieldInt (o : Option Int) : String :=
  match o with
  | none => "null"
  | some n => toString n

/-- Template interpolation `${x}` of an optional-chaining result
(`undefined` prints as `"undefined"`). -/
def undefInterp (o : Option String) : String := o.getD "undefined"

/-- JavaScript object-key coercion of a nullable string (`obj[null]`
reads key `"null"`). -/
def jsKey (o : Option String) : String := o.getD "null"

/-- The `categoryColors` palette of `app.js` (`bg`, `text`, `border`). -/
structure CatColor where
  bg : String
  text : String
  border : String
deriving DecidableEq, Repr

/-- The `categoryColors` lookup table. -/
def categoryColors : String → Option CatColor
  | "Hardware Integrations" =>
    some ⟨"bg-blue-100", "text-blue-800", "border-blue-200"⟩
  | "Hardware Comparisons" =>
    some ⟨"bg-indigo-100", "text-indigo-800", "border-indigo-200"⟩
  | "Software Comparisons" =>
    some ⟨"bg-purple-100", "text-purple-800", "border-purple-200"⟩
  | "Platform Guides" =>
    some ⟨"bg-pink-100", "text-pink-800", "border-pink-200"⟩
  | "Industry Guides" =>
    some ⟨"bg-orange-100", "text-orange-800", "border-orange-200"⟩
  | "Skills & Techniques" =>
    some ⟨"bg-green-100", "text-green-800", "border-green-200"⟩
  | "Script Writing" =>
    some ⟨"bg-yellow-100", "text-yellow-800", "border-yellow-200"⟩
  | "Production & Setup" =>
    some ⟨"bg-red-100", "text-red-800", "border-red-200"⟩
  | _ => none

/-- The `priorityColors` lookup table (`bg`, `text`). -/
def priorityColors : String → Option (String × String)
  | "High" => some ("bg-red-100", "text-red-800")
  | "Medium" => some ("bg-yellow-100", "text-yellow-800")
  | "Low" => some ("bg-green-100", "text-green-800")
  | _ => none

/-- The `statusColors` lookup table (`bg`, `text`). -/
def statusColors : String → Option (String × String)
  | "planned" => some ("bg-gray-100", "text-gray-800")
  | "in_progress" => some ("bg-blue-100", "text-blue-800")
  | "written" => some ("bg-yellow-100", "text-yellow-800")
  | "published" => some ("bg-green-100", "text-green-800")
  | _ => none

/-! ### loadArticles / seedArticles -/

/-- The `loadArticles` bootstrap of `app.js`, parametrised by its external
interactions: the result of each `fetch('/api/articles')` (`Except` error =
a thrown fetch/JSON failure, caught by the surrounding `try`), the response
to the seed `POST /api/articles/bulk`, and the static fallback dataset
(`none` models `typeof staticArticles === 'undefined'`; in that case the
`articles` module state keeps its initial value `[]`).  `seedArticles`
catches its own errors and never inspects the bulk response, so the
`seedResponse` argument cannot influence the result — only the re-fetch
can. -/
def loadArticles {α : Type} (fetch1 : Except Unit (List α))
    (_seedResponse : HResp Nat) (fetch2 : Except Unit (List α))
    (staticData : Option (List α)) : List α :=
  match fetch1 with
  | .error _ =>
    (match staticData with
     | some s => s
     | none => [])
  | .ok data =>
    if data.length = 0 then
      match fetch2 with
      | .error _ =>
        (match staticData with
         | some s => s
         | none => [])
      | .ok l2 => l2
    else data

/-! ### applyFilters -/

/-- The `applyFilters` predicate-and-filter of `app.js`: `search` is the
lower-cased free text, the other four are `select` values where `""` means
unset.  The keyword/description disjuncts are guarded by JS truthiness
(`null`, `undefined` and `""` all short-circuit to false). -/
def applyFilters (rows : List Row)
    (searchRaw category priority funnel status : String) : List Row :=
  let search := lowerStr searchRaw
  rows.filter (fun article =>
    let matchesSearch := search == "" ||
      jsIncludes (lowerStr article.title) search ||
      (match article.keyword with
       | some k => !(k == "") && jsIncludes (lowerStr k) search
       | none => false) ||
      (match article.description with
       | some d => !(d == "") && jsIncludes (lowerStr d) search
       | none => false)
    let matchesCategory := category == "" || article.category == some category
    let matchesPriority := priority == "" || article.priority == some priority
    let matchesFunnel := funnel == "" || article.funnel == some funnel
    let matchesStatus := status == "" || article.status == some status
    matchesSearch && matchesCategory && matchesPriority && matchesFunnel &&
      matchesStatus)

/-! ### The three render modes

Each `render*View` below produces the string assigned to
`container.innerHTML`, i.e. the template output `html` with the JS
`html || placeholder` fallback applied. -/

/-- The shared empty-state markup (string-identical in all three views). -/
def noMatchHtml : String :=
  "<p class=\"text-gray-500 text-center py-8\">No articles match your filters</p>"

/-- JavaScript `Number.prototype.toLocaleString`: decimal digits grouped in
threes by commas (en-US grouping). -/
def commasAux : Nat → List Char → List Char
  | _, [] => []
  | k, c :: cs =>
    if k % 3 = 0 && k ≠ 0 then ',' :: c :: commasAux (k + 1) cs
    else c :: commasAux (k + 1) cs

/-- Rendering of `n.toLocaleString()` for an integer. -/
def toLocaleStringInt (n : Int) : String :=
  let ds := (toString n.natAbs).data
  (if n < 0 then "-" else "") ++ String.mk (commasAux 0 ds.reverse).reverse

/-- One `<option>` of the inline status select:
`${article.status === s ? 'selected' : ''}`. -/
def selectedAttr (st : Option String) (s : String) : String :=
  if st = some s then "selected" else ""

/-- One card of the flat list view (the template literal inside
`renderListView`'s `map`). -/
def listItemHtml (article : Row) : String :=
  let cat := (categoryColors (jsKey article.category))
  let pri := (priorityColors (jsKey article.priority))
  let st := (statusColors (jsKey article.status))
  "\n    <div class=\"bg-white rounded-lg shadow-sm p-4 mb-3 border-l-4 " ++
    jsOrStr (undefInterp (cat.map CatColor.border)) "border-gray-200" ++
    "\">\n      <div class=\"flex justify-between items-start gap-4\">\n        <div class=\"flex-1\">\n          <div class=\"flex items-center gap-2 mb-1 flex-wrap\">\n            <span class=\"text-xs font-mono text-gray-400\">" ++
    jsOrStr article.article_id (toString article.id) ++
    "</span>\n            <span class=\"text-xs px-2 py-0.5 rounded " ++
    undefInterp (cat.map CatColor.bg) ++ " " ++
    undefInterp (cat.map CatColor.text) ++ "\">" ++
    fieldStr article.category ++
    "</span>\n            <span class=\"text-xs px-2 py-0.5 rounded " ++
    undefInterp (pri.map Prod.fst) ++ " " ++
    undefInterp (pri.map Prod.snd) ++ "\">" ++
    fieldStr article.priority ++
    "</span>\n            <span class=\"text-xs px-2 py-0.5 rounded " ++
    jsOrStr (undefInterp (st.map Prod.fst)) "bg-gray-100" ++ " " ++
    jsOrStr (undefInterp (st.map Prod.snd)) "text-gray-800" ++ "\">" ++
    jsOrOpt article.status "planned" ++
    "</span>\n            <span class=\"text-xs text-gray-500\">Week " ++
    fieldInt article.week ++
    "</span>\n          </div>\n          <h3 class=\"font-semibold text-gray-900 mb-1\">" ++
    article.title ++
    "</h3>\n          <p class=\"text-sm text-gray-600 mb-2\">" ++
    jsOrOpt article.description "" ++
    "</p>\n          <div class=\"flex flex-wrap gap-2 text-xs text-gray-500\">\n            <span class=\"bg-gray-100 px-2 py-1 rounded\">🔍 " ++
    jsOrOpt article.keyword "" ++
    "</span>\n            <span class=\"bg-gray-100 px-2 py-1 rounded\">📊 " ++
    jsOrOpt article.intent "" ++
    "</span>\n            <span class=\"bg-gray-100 px-2 py-1 rounded\">🎯 " ++
    jsOrOpt article.funnel "" ++
    "</span>\n            <span class=\"bg-gray-100 px-2 py-1 rounded\">📝 " ++
    toLocaleStringInt (article.word_count.getD 0) ++
    " words</span>\n          </div>\n        </div>\n        <div class=\"flex-shrink-0\">\n          <select onchange=\"updateArticleStatus(" ++
    toString article.id ++
    ", this.value)\" class=\"text-xs border rounded px-2 py-1\">\n            <option value=\"planned\" " ++
    selectedAttr article.status "planned" ++
    ">Planned</option>\n            <option value=\"in_progress\" " ++
    selectedAttr article.status "in_progress" ++
    ">In Progress</option>\n            <option value=\"written\" " ++
    selectedAttr article.status "written" ++
    ">Written</option>\n            <option value=\"published\" " ++
    selectedAttr article.status "published" ++
    ">Published</option>\n          </select>\n        </div>\n      </div>\n    </div>\n  "

/-- The `renderListView` output: the joined cards, or the empty-state
markup when the joined string is empty (`html || placeholder`). -/
def renderListView (filteredArticles : List Row) : String :=
  jsOrStr (String.join (filteredArticles.map listItemHtml)) noMatchHtml

/-- Comparison used to model the ascending iteration/sort of the calendar
week keys (integer-like object keys iterate ascending; the non-index key
`"null"`, whose `parseInt` is NaN, stays last). -/
def weekKeyLE (a b : Option Int) : Bool :=
  match a, b with
  | none, none => true
  | none, some _ => false
  | some _, none => true
  | some x, some y => decide (x ≤ y)

/-- The sorted distinct week keys of `renderCalendarView`
(`Object.keys(weeks).sort((a, b) => parseInt(a) - parseInt(b))`). -/
def weekKeys (l : List Row) : List (Option Int) :=
  ((l.map Row.week).dedup).mergeSort weekKeyLE

/-- Derived quarter label `Q${Math.ceil(parseInt(week) / 13)}`; the
`"null"` week key parses to NaN and prints `"NaN"`. -/
def quarterStr (k : Option Int) : String :=
  match k with
  | none => "NaN"
  | some w => toString (Int.fdiv (w + 12) 13)

/-- Rendering of the week key itself (`Week ${week}`). -/
def weekKeyStr (k : Option Int) : String :=
  match k with
  | none => "null"
  | some w => toString w

/-- One card inside a calendar week group. -/
def calItemHtml (article : Row) : String :=
  let cat := (categoryColors (jsKey article.category))
  let pri := (priorityColors (jsKey article.priority))
  let st := (statusColors (jsKey article.status))
  "\n                <div class=\"border rounded-lg p-3 " ++
    jsOrStr (undefInterp (cat.map CatColor.border)) "border-gray-200" ++
    "\">\n                  <div class=\"flex items-center gap-2 mb-1 flex-wrap\">\n                    <span class=\"text-xs font-mono text-gray-400\">" ++
    jsOrStr article.article_id (toString article.id) ++
    "</span>\n                    <span class=\"text-xs px-2 py-0.5 rounded " ++
    undefInterp (pri.map Prod.fst) ++ " " ++
    undefInterp (pri.map Prod.snd) ++ "\">" ++
    fieldStr article.priority ++
    "</span>\n                    <span class=\"text-xs px-2 py-0.5 rounded " ++
    jsOrStr (undefInterp (st.map Prod.fst)) "bg-gray-100" ++ " " ++
    jsOrStr (undefInterp (st.map Prod.snd)) "text-gray-800" ++ "\">" ++
    jsOrOpt article.status "planned" ++
    "</span>\n                  </div>\n                  <h4 class=\"font-medium text-sm text-gray-900\">" ++
    article.title ++
    "</h4>\n                  <span class=\"text-xs " ++
    undefInterp ((categoryColors (jsKey article.category)).map CatColor.text) ++
    "\">" ++ fieldStr article.category ++
    "</span>\n                </div>\n              "

/-- One week group of the calendar view. -/
def weekBlockHtml (k : Option Int) (members : List Row) : String :=
  "\n          <div class=\"bg-white rounded-lg shadow-sm p-4\">\n            <div class=\"flex items-center gap-2 mb-3\">\n              <span class=\"text-lg font-bold text-indigo-600\">Week " ++
    weekKeyStr k ++
    "</span>\n              <span class=\"text-sm text-gray-500\">Q" ++
    quarterStr k ++
    "</span>\n            </div>\n            <div class=\"grid md:grid-cols-2 gap-3\">\n              " ++
    String.join (members.map calItemHtml) ++
    "\n            </div>\n          </div>\n        "

/-- The `renderCalendarView` output.  Note the template wraps the joined
groups in a `grid` container, so `html` is non-empty even for an empty
record list, and the `html || placeholder` fallback can never fire. -/
def renderCalendarView (filteredArticles : List Row) : String :=
  let html :=
    "\n    <div class=\"grid gap-4\">\n      " ++
    String.join ((weekKeys filteredArticles).map (fun k =>
      weekBlockHtml k (filteredArticles.filter (fun a => a.week = k)))) ++
    "\n    </div>\n  "
  jsOrStr html noMatchHtml

/-- Lexicographic string comparison, as JS default `Array.prototype.sort`
compares strings. -/
def strLE (a b : String) : Bool :=
  charListLE a.data b.data

/-- The sorted distinct category keys of `renderCategoryView`
(`Object.keys(categories).sort()`; a `null` category groups under the
coerced key `"null"`). -/
def catKeys (l : List Row) : List String :=
  ((l.map (fun a => jsKey a.category)).dedup).mergeSort strLE

/-- One card inside a category group. -/
def catItemHtml (article : Row) : String :=
  let cat := (categoryColors (jsKey article.category))
  let pri := (priorityColors (jsKey article.priority))
  let st := (statusColors (jsKey article.status))
  "\n          <div class=\"bg-white rounded-lg shadow-sm p-4 border-t-4 " ++
    jsOrStr (undefInterp (cat.map CatColor.border)) "border-gray-200" ++
    "\">\n            <div class=\"flex items-center gap-2 mb-2 flex-wrap\">\n              <span class=\"text-xs font-mono text-gray-400\">" ++
    jsOrStr article.article_id (toString article.id) ++
    "</span>\n              <span class=\"text-xs px-2 py-0.5 rounded " ++
    undefInterp (pri.map Prod.fst) ++ " " ++
    undefInterp (pri.map Prod.snd) ++ "\">" ++
    fieldStr article.priority ++
    "</span>\n              <span class=\"text-xs px-2 py-0.5 rounded " ++
    jsOrStr (undefInterp (st.map Prod.fst)) "bg-gray-100" ++ " " ++
    jsOrStr (undefInterp (st.map Prod.snd)) "text-gray-800" ++ "\">" ++
    jsOrOpt article.status "planned" ++
    "</span>\n              <span class=\"text-xs text-gray-500\">Wk " ++
    fieldInt article.week ++
    "</span>\n            </div>\n            <h3 class=\"font-medium text-gray-900 mb-1 text-sm\">" ++
    article.title ++
    "</h3>\n            <p class=\"text-xs text-gray-500\">" ++
    jsOrOpt article.keyword "" ++
    "</p>\n          </div>\n        "

/-- One category group of the category view. -/
def catGroupHtml (k : String) (members : List Row) : String :=
  "\n    <div class=\"mb-8\">\n      <div class=\"flex items-center gap-2 mb-4\">\n        <h2 class=\"text-xl font-bold text-gray-900\">" ++
    k ++
    "</h2>\n        <span class=\"text-sm px-2 py-1 rounded " ++
    undefInterp ((categoryColors k).map CatColor.bg) ++ " " ++
    undefInterp ((categoryColors k).map CatColor.text) ++
    "\">\n          " ++
    toString members.length ++
    " articles\n        </span>\n      </div>\n      <div class=\"grid md:grid-cols-2 lg:grid-cols-3 gap-3\">\n        " ++
    String.join (members.map catItemHtml) ++
    "\n      </div>\n    </div>\n  "

/-- The `renderCategoryView` output: the joined groups, or the empty-state
markup when the joined string is empty. -/
def renderCategoryView (filteredArticles : List Row) : String :=
  jsOrStr
    (String.join ((catKeys filteredArticles).map (fun k =>
      catGroupHtml k
        (filteredArticles.filter (fun a => jsKey a.category = k)))))
    noMatchHtml

/-!
## Concrete instances used by counterexamples and witnesses
-/

/-- A stored record whose status has been moved past the default. -/
def sampleRow : Row :=
  { id := 1, article_id := "A1", title := "T",
    keyword := none, intent := none, funnel := none, description := none,
    priority := some "High", word_count := some 1500,
    category := some "Platform Guides", week := some 2,
    status := some "written", notes := some "draft done",
    created_at := 0, updated_at := 0 }

/-- A store holding exactly `sampleRow`. -/
def sampleDB : DB := ⟨[sampleRow], 2⟩

/-- An upsert body for the same `article_id` with identical descriptive
fields and `status`/`notes` omitted. -/
def omitStatusBody : UpsertBody :=
  { article_id := some "A1", title := some "T",
    keyword := none, intent := none, funnel := none, description := none,
    priority := some "High", word_count := some 1500,
    category := some "Platform Guides", week := some 2,
    status := none, notes := none }

/-- The bulk record carrying the same descriptive fields as
`omitStatusBody` (bulk records never carry `status`/`notes`). -/
def seedRec : BulkRec :=
  { id := some "A1", title := some "T",
    keyword := none, intent := none, funnel := none, description := none,
    priority := some "High", wordCount := some 1500,
    category := some "Platform Guides", week := some 2 }

/-- A malformed bulk record: its `id` is missing, so the `NOT NULL`
constraint on `article_id` rejects the INSERT. -/
def badRec : BulkRec :=
  { id := none, title := some "T2",
    keyword := none, intent := none, funnel := none, description := none,
    priority := none, wordCount := none, category := none, week := none }

/-- A fresh bulk record on a new `article_id`. -/
def freshRec : BulkRec :=
  { id := some "B7", title := some "Fresh",
    keyword := none, intent := none, funnel := none, description := none,
    priority := some "Low", wordCount := some 900,
    category := some "Industry Guides", week := some 5 }

/-!
## Spec-side predicates (stated from the specification's words, to be
compared with the code-derived definitions)
-/

/-- Case-insensitive substring relation, as the filtering spec words it:
the search string, compared case-insensitively, occurs inside the field. -/
def ciSubstr (needle hay : String) : Prop :=
  jsIncludes (lowerStr hay) (lowerStr needle) = true

/-- The specification's description of the visible-record predicate: the
conjunction of all five filters, where the free-text predicate is the
disjunction over `title`, `keyword` and `description`, and an unset
(empty) filter matches every record. -/
def specFilterPred (search category priority funnel status : String)
    (a : Row) : Prop :=
  (search = "" ∨ ciSubstr search a.title ∨
    (∃ k, a.keyword = some k ∧ ciSubstr search k) ∨
    (∃ d, a.description = some d ∧ ciSubstr search d)) ∧
  (category = "" ∨ a.category = some category) ∧
  (priority = "" ∨ a.priority = some priority) ∧
  (funnel = "" ∨ a.funnel = some funnel) ∧
  (status = "" ∨ a.status = some status)

/-!
## Helper lemmas
-/

/-- Lowercasing preserves emptiness. -/
theorem lowerStr_eq_empty_iff (s : String) : lowerStr s = "" ↔ s = "" := by
  constructor
  · intro h
    cases s with
    | mk data =>
      cases data with
      | nil => rfl
      | cons c cs =>
        have h2 := congrArg String.data h
        simp [lowerStr] at h2
  · intro h
    subst h
    rfl

/-- A non-empty string has non-empty character data. -/
theorem string_ne_empty_data {s : String} (h : s ≠ "") : s.data ≠ [] := by
  intro hd
  apply h
  cases s with
  | mk d => exact congrArg String.mk hd

/-- A valid record's write succeeds and performs `bulkStep`. -/
theorem bulkWrite_ok (now : Nat) (db : DB) (a : BulkRec)
    (h : bulkRecOk a = true) :
    bulkWrite now db a = .ok (bulkStep now db a) := by
  simp [bulkWrite, h]

/-- An invalid record's write fails. -/
theorem bulkWrite_err (now : Nat) (db : DB) (a : BulkRec)
    (h : bulkRecOk a = false) :
    bulkWrite now db a = .error "bulk insert constraint violation" := by
  simp [bulkWrite, h]

/-- When every record is valid, the transaction body is the pure fold of
the per-record step. -/
theorem bulkApplyList_ok (now : Nat) :
    ∀ (l : List BulkRec) (db : DB), (∀ a ∈ l, bulkRecOk a = true) →
      bulkApplyList db l now = .ok (l.foldl (bulkStep now) db) := by
  intro l
  induction l with
  | nil => intro db _; rfl
  | cons a t ih =>
    intro db h
    have ha : bulkRecOk a = true := h a (List.mem_cons_self a t)
    have ht : ∀ x ∈ t, bulkRecOk x = true :=
      fun x hx => h x (List.mem_cons_of_mem a hx)
    simp only [bulkApplyList, List.foldlM_cons, bulkWrite_ok now db a ha]
    simpa [bulkApplyList, List.foldl_cons] using ih (bulkStep now db a) ht

/-- When some record is invalid, the transaction body fails. -/
theorem bulkApplyList_err (now : Nat) :
    ∀ (l : List BulkRec) (db : DB), (∃ a ∈ l, bulkRecOk a = false) →
      ∃ m, bulkApplyList db l now = .error m := by
  intro l
  induction l with
  | nil => intro db h; rcases h with ⟨a, ha, _⟩; cases ha
  | cons a t ih =>
    intro db h
    by_cases hA : bulkRecOk a = true
    · rcases h with ⟨x, hx, hxf⟩
      rcases List.mem_cons.mp hx with rfl | hxt
      · rw [hA] at hxf; cases hxf
      · rcases ih (bulkStep now db a) ⟨x, hxt, hxf⟩ with ⟨m, hm⟩
        exact ⟨m, by simp only [bulkApplyList, List.foldlM_cons,
          bulkWrite_ok now db a hA]; exact hm⟩
    · refine ⟨"bulk insert constraint violation", ?_⟩
      have hf : bulkRecOk a = false := by
        cases hrec : bulkRecOk a
        · rfl
        · exact absurd hrec hA
      simp only [bulkApplyList, List.foldlM_cons, bulkWrite_err now db a hf]
      rfl

/-!
## Claim theorems
-/

/-- C1: the claim fails on the code.  With `sampleRow` stored under
`articleId "A1"` with status `"written"`, an upsert of the same
`articleId` with identical descriptive fields and `status`/`notes`
omitted does NOT leave the status unchanged: `status || 'planned'` makes
the `EXCLUDED.status` parameter non-null, the SQL `COALESCE` never falls
through to the stored value, and the status is reset to `"planned"`.
The omitted `notes` ARE preserved, and the two calls still yield exactly
one record. -/
theorem upsert_omitted_status_reset :
    upsertEndpoint true sampleDB omitStatusBody 7 =
      (⟨[{ sampleRow with status := some "planned", updated_at := 7 }], 2⟩,
        .ok { sampleRow with status := some "planned", updated_at := 7 }) ∧
    sampleRow.status = some "written" ∧
    omitStatusBody.status = none ∧ omitStatusBody.notes = none ∧
    ({ sampleRow with status := some "planned", updated_at := 7 } : Row).notes
      = sampleRow.notes := by
  exact ⟨rfl, rfl, rfl, rfl, rfl⟩

/-- C3: while the store is unready (`!pool || !dbReady`), List answers
HTTP 200 with `[]` and Stats answers HTTP 200 with every returned count
zero (neither errors), while Get, Upsert, Patch, Delete and BulkUpsert all
fail with 503 and leave the store untouched. -/
theorem unready_degrade_vs_fail (db : DB) (pid : Nat) (b : UpsertBody)
    (pb : PatchBody) (l : List BulkRec) (now : Nat) :
    listEndpoint false db = .ok [] ∧
    statsEndpoint false db = .ok ⟨0, 0, 0, 0, none, none, none, none⟩ ∧
    getEndpoint false db pid = .err 503 "Database not available" ∧
    upsertEndpoint false db b now = (db, .err 503 "Database not available") ∧
    patchEndpoint false db pid pb now =
      (db, .err 503 "Database not available") ∧
    deleteEndpoint false db pid = (db, .err 503 "Database not available") ∧
    bulkEndpoint false db l now = (db, .err 503 "Database not available") := by
  exact ⟨rfl, rfl, rfl, rfl, rfl, rfl, rfl⟩

/-- C4: the claim fails on the code.  On the existing `articleId "A1"`
(stored status `"written"`), the bulk write leaves `status` untouched
(it is not in the bulk `DO UPDATE SET` list), while the corresponding
single Upsert — same descriptive fields, `status`/`notes` omitted —
resets the status to `"planned"`; so a bulk call is not equivalent to the
corresponding sequence of single Upsert calls.  (On a fresh `articleId`
the two do agree: the last conjunct inserts `freshRec` with the defaulted
status, exactly as a single Upsert of the same fields would.) -/
theorem bulk_not_equivalent_to_upsert :
    (bulkEndpoint true sampleDB [seedRec] 7).1.rows.map Row.status
      = [some "written"] ∧
    (upsertEndpoint true sampleDB omitStatusBody 7).1.rows.map Row.status
      = [some "planned"] ∧
    bulkEndpoint true ⟨[], 1⟩ [freshRec] 7 =
      (⟨[{ id := 1, article_id := "B7", title := "Fresh",
           keyword := none, intent := none, funnel := none,
           description := none, priority := some "Low",
           word_count := some 900, category := some "Industry Guides",
           week := some 5, status := some "planned", notes := none,
           created_at := 7, updated_at := 7 }], 2⟩, .ok 1) ∧
    upsertEndpoint true ⟨[], 1⟩
      { article_id := some "B7", title := some "Fresh",
        keyword := none, intent := none, funnel := none,
        description := none, priority := some "Low",
        word_count := some 900, category := some "Industry Guides",
        week := some 5, status := none, notes := none } 7 =
      (⟨[{ id := 1, article_id := "B7", title := "Fresh",
           keyword := none, intent := none, funnel := none,
           description := none, priority := some "Low",
           word_count := some 900, category := some "Industry Guides",
           week := some 5, status := some "planned", notes := none,
           created_at := 7, updated_at := 7 }], 2⟩,
        .ok { id := 1, article_id := "B7", title := "Fresh",
              keyword := none, intent := none, funnel := none,
              description := none, priority := some "Low",
              word_count := some 900, category := some "Industry Guides",
              week := some 5, status := some "planned", notes := none,
              created_at := 7, updated_at := 7 }) := by
  exact ⟨rfl, rfl, rfl, rfl⟩

/-- C5 counterexample: Stats on an unavailable store does NOT return a
count for each of the fixed status values — the unready literal carries
only `total` and the three priority counts, and the four status counts
are absent, so the claim fails at the concrete unready empty store. -/
theorem stats_unready_missing_status_counts :
    statsEndpoint false ⟨[], 1⟩ =
      .ok ⟨0, 0, 0, 0, none, none, none, none⟩ ∧
    (StatsJson.planned ⟨0, 0, 0, 0, none, none, none, none⟩).isSome
      = false := by
  exact ⟨rfl, rfl⟩

/-- C5 amended: Stats never errors.  When the store is ready it returns
the total together with a count for each fixed priority and each fixed
status value (all zero on an empty store); when the store is unavailable
it returns zeros for the total and the three priority counts only,
omitting the status counts. -/
theorem stats_counts (db : DB) (n : Nat) :
    (∃ s, statsEndpoint true db = .ok s ∧
      s.total = db.rows.length ∧
      s.high_priority = db.rows.countP (fun r => r.priority = some "High") ∧
      s.medium_priority
        = db.rows.countP (fun r => r.priority = some "Medium") ∧
      s.low_priority = db.rows.countP (fun r => r.priority = some "Low") ∧
      s.planned = some (db.rows.countP (fun r => r.status = some "planned")) ∧
      s.in_progress
        = some (db.rows.countP (fun r => r.status = some "in_progress")) ∧
      s.written = some (db.rows.countP (fun r => r.status = some "written")) ∧
      s.published
        = some (db.rows.countP (fun r => r.status = some "published"))) ∧
    statsEndpoint true ⟨[], n⟩ =
      .ok ⟨0, 0, 0, 0, some 0, some 0, some 0, some 0⟩ ∧
    statsEndpoint false db = .ok ⟨0, 0, 0, 0, none, none, none, none⟩ := by
  exact ⟨⟨_, rfl, rfl, rfl, rfl, rfl, rfl, rfl, rfl, rfl⟩, rfl, rfl⟩

/-- C7: the claim fails on the code.  On an empty filtered set the flat
list and category views produce the shared "no records match" markup, but
the calendar view wraps its (empty) groups in a grid container before the
`html || placeholder` fallback, so its output is a non-empty container and
never the placeholder. -/
theorem empty_render_modes_disagree :
    renderListView [] = noMatchHtml ∧
    renderCategoryView [] = noMatchHtml ∧
    renderCalendarView []
      = "\n    <div class=\"grid gap-4\">\n      \n    </div>\n  " ∧
    renderCalendarView [] ≠ noMatchHtml := by
  have hcal : renderCalendarView []
      = "\n    <div class=\"grid gap-4\">\n      \n    </div>\n  " := by
    simp [renderCalendarView, weekKeys, List.mergeSort_nil, jsOrStr,
      String.join]
  have hcat : renderCategoryView [] = noMatchHtml := by
    simp [renderCategoryView, catKeys, List.mergeSort_nil, jsOrStr,
      String.join, noMatchHtml]
  refine ⟨rfl, hcat, hcal, ?_⟩
  rw [hcal]
  decide

/-- C6 counterexample: a load in which the fetched list is empty and
seeding does not succeed (the bulk seed POST answers 503 — the unready
store — and the re-fetch again delivers `[]`) leaves the view's record
list EMPTY, not equal to the in-memory fallback dataset: the static
fallback is reached only from the `catch` branch, i.e. only when a fetch
throws, and an HTTP 503 response does not throw. -/
theorem load_after_failed_seed_is_empty :
    loadArticles (α := Row) (.ok []) (.err 503 "Database not available")
      (.ok []) (some [sampleRow]) = [] ∧
    ([] : List Row) ≠ [sampleRow] := by
  refine ⟨rfl, ?_⟩
  intro h
  cases h

/-- C6 amended: the view falls back to the static dataset exactly when a
list fetch throws (network/parse failure) — on the initial fetch or on the
re-fetch after seeding.  When both fetches return normally, the record
list is whatever the (re-)fetch delivered; in particular a failed seed
whose re-fetch yields `[]` leaves the record list empty, and a non-empty
first fetch skips the seed path entirely. -/
theorem load_fallback_on_throw_only {α : Type} (sData l2 : List α)
    (l : List α) (sr sr' : HResp Nat) (f2 : Except Unit (List α)) :
    loadArticles (.error ()) sr f2 (some sData) = sData ∧
    loadArticles (.ok []) sr (.error ()) (some sData) = sData ∧
    loadArticles (.ok []) sr (.ok l2) (some sData) = l2 ∧
    (l ≠ [] → loadArticles (.ok l) sr' f2 (some sData) = l) := by
  refine ⟨rfl, rfl, rfl, ?_⟩
  intro hl
  cases l with
  | nil => exact absurd rfl hl
  | cons a t => rfl

/-- Witness for `load_fallback_on_throw_only` at a concrete non-empty
fetched list. -/
theorem load_fallback_on_throw_only_witness :
    loadArticles (.ok [sampleRow]) (.ok 1) (.ok []) (some []) =
      [sampleRow] :=
  (load_fallback_on_throw_only [] [] [sampleRow] (.ok 1) (.ok 1)
      (.ok [])).2.2.2 (by intro h; cases h)

/-- C2: BulkUpsert is all-or-nothing.  If every record in the sequence is
valid, the endpoint commits: the resulting store is the fold of the
per-record write over the sequence (every record applied, in order) and
the response reports the count.  If any record is invalid, the endpoint
rolls back: the resulting store is exactly the store before the call, and
the response is a 500. -/
theorem bulk_all_or_nothing (db : DB) (l : List BulkRec) (now : Nat) :
    ((∀ a ∈ l, bulkRecOk a = true) →
      bulkEndpoint true db l now = (l.foldl (bulkStep now) db, .ok l.length)) ∧
    ((∃ a ∈ l, bulkRecOk a = false) →
      (bulkEndpoint true db l now).1 = db ∧
      ∃ m, (bulkEndpoint true db l now).2 = .err 500 m) := by
  constructor
  · intro h
    simp [bulkEndpoint, bulkApplyList_ok now l db h]
  · intro h
    rcases bulkApplyList_err now l db h with ⟨m, hm⟩
    simp [bulkEndpoint, hm]

/-- Witness for `bulk_all_or_nothing`: a batch containing the malformed
`badRec` leaves `sampleDB` unchanged, and the all-valid batch
`[seedRec, freshRec]` is applied as the fold of the per-record step. -/
theorem bulk_all_or_nothing_witness :
    (bulkEndpoint true sampleDB [seedRec, badRec] 3).1 = sampleDB ∧
    bulkEndpoint true sampleDB [seedRec, freshRec] 3 =
      ([seedRec, freshRec].foldl (bulkStep 3) sampleDB, .ok 2) :=
  ⟨((bulk_all_or_nothing sampleDB [seedRec, badRec] 3).2
      ⟨badRec, by simp, rfl⟩).1,
    (bulk_all_or_nothing sampleDB [seedRec, freshRec] 3).1
      (by intro a ha
          rcases List.mem_cons.mp ha with rfl | ha
          · rfl
          · rcases List.mem_cons.mp ha with rfl | ha
            · rfl
            · cases ha)⟩

/-- C8: Patch updates only the supplied subset of {status, notes, week}.
When a row with the internal id exists, the response row (which replaces
the stored row and nothing else in the store) agrees with the stored row
on the id, `articleId` and all nine descriptive fields, carries the
refreshed `updatedAt`, merges each of status/notes/week by
`COALESCE(new, old)`, and keeps the stored value whenever the incoming
field is absent; in particular a status-only Patch changes exactly
`status` and `updatedAt`.  When no row has the id, the endpoint answers
404 and the store is unchanged. -/
theorem patch_updates_supplied_subset_only (db : DB) (pid : Nat)
    (b : PatchBody) (now : Nat) :
    (db.rows.find? (fun r => r.id = pid) = none →
      patchEndpoint true db pid b now =
        (db, .err 404 "Article not found")) ∧
    (∀ r, db.rows.find? (fun r => r.id = pid) = some r →
      ∃ r', patchEndpoint true db pid b now =
          (⟨db.rows.map (fun x => if x.id = pid then r' else x),
            db.nextId⟩, .ok r') ∧
        r'.id = r.id ∧ r'.article_id = r.article_id ∧ r'.title = r.title ∧
        r'.keyword = r.keyword ∧ r'.intent = r.intent ∧
        r'.funnel = r.funnel ∧ r'.description = r.description ∧
        r'.priority = r.priority ∧ r'.word_count = r.word_count ∧
        r'.category = r.category ∧ r'.created_at = r.created_at ∧
        r'.updated_at = now ∧
        r'.status = coalesce b.status.toSql r.status ∧
        r'.notes = coalesce b.notes.toSql r.notes ∧
        r'.week = coalesce b.week.toSql r.week ∧
        (b.status.toSql = none → r'.status = r.status) ∧
        (b.notes.toSql = none → r'.notes = r.notes) ∧
        (b.week.toSql = none → r'.week = r.week)) := by
  constructor
  · intro h
    simp [patchEndpoint, h]
  · intro r h
    refine ⟨{ r with
        status := coalesce b.status.toSql r.status,
        notes := coalesce b.notes.toSql r.notes,
        week := coalesce b.week.toSql r.week,
        updated_at := now }, ?_, rfl, rfl, rfl, rfl, rfl, rfl, rfl, rfl,
      rfl, rfl, rfl, rfl, rfl, rfl, rfl, ?_, ?_, ?_⟩
    · simp [patchEndpoint, h]
    · intro hs; simp [hs, coalesce]
    · intro hn; simp [hn, coalesce]
    · intro hw; simp [hw, coalesce]

/-- Witness for `patch_updates_supplied_subset_only`: a status-only Patch
of the stored `sampleRow`. -/
theorem patch_updates_supplied_subset_only_witness :
    ∃ r', patchEndpoint true sampleDB 1 ⟨.val "published", .undef, .undef⟩ 9 =
        (⟨sampleDB.rows.map (fun x => if x.id = 1 then r' else x),
          sampleDB.nextId⟩, .ok r') ∧
      r'.id = sampleRow.id ∧ r'.article_id = sampleRow.article_id ∧
      r'.title = sampleRow.title ∧
      r'.keyword = sampleRow.keyword ∧ r'.intent = sampleRow.intent ∧
      r'.funnel = sampleRow.funnel ∧
      r'.description = sampleRow.description ∧
      r'.priority = sampleRow.priority ∧
      r'.word_count = sampleRow.word_count ∧
      r'.category = sampleRow.category ∧
      r'.created_at = sampleRow.created_at ∧
      r'.updated_at = 9 ∧
      r'.status = coalesce (JVal.toSql (.val "published")) sampleRow.status ∧
      r'.notes = coalesce (JVal.toSql .undef) sampleRow.notes ∧
      r'.week = coalesce (JVal.toSql .undef) sampleRow.week ∧
      (JVal.toSql (α := String) (.val "published") = none →
        r'.status = sampleRow.status) ∧
      (JVal.toSql (α := String) .undef = none → r'.notes = sampleRow.notes) ∧
      (JVal.toSql (α := Int) .undef = none → r'.week = sampleRow.week) :=
  (patch_updates_supplied_subset_only sampleDB 1
      ⟨.val "published", .undef, .undef⟩ 9).2 sampleRow rfl

/-- C10: a Patch field explicitly set to JSON `null` behaves exactly like
an omitted field — the driver serialises both to SQL NULL, and the
`COALESCE` keeps the stored value — so no Patch call can clear status,
notes or week; a Patch whose three fields are all null only refreshes
`updatedAt`. -/
theorem patch_null_same_as_omitted (db : DB) (pid : Nat) (now : Nat)
    (s nt : JVal String) (w : JVal Int) :
    patchEndpoint true db pid ⟨.jnull, nt, w⟩ now =
      patchEndpoint true db pid ⟨.undef, nt, w⟩ now ∧
    patchEndpoint true db pid ⟨s, .jnull, w⟩ now =
      patchEndpoint true db pid ⟨s, .undef, w⟩ now ∧
    patchEndpoint true db pid ⟨s, nt, .jnull⟩ now =
      patchEndpoint true db pid ⟨s, nt, .undef⟩ now ∧
    (∀ r, db.rows.find? (fun x => x.id = pid) = some r →
      (patchEndpoint true db pid ⟨.jnull, .jnull, .jnull⟩ now).2 =
        .ok { r with updated_at := now }) := by
  refine ⟨rfl, rfl, rfl, ?_⟩
  intro r h
  simp [patchEndpoint, h, coalesce, JVal.toSql]

/-- Witness for `patch_null_same_as_omitted` at the stored `sampleRow`. -/
theorem patch_null_same_as_omitted_witness :
    (patchEndpoint true sampleDB 1 ⟨.jnull, .jnull, .jnull⟩ 9).2 =
      .ok { sampleRow with updated_at := 9 } :=
  (patch_null_same_as_omitted sampleDB 1 9 .undef .undef .undef).2.2.2
    sampleRow rfl

/-- C9: for every record list and every setting of the five filters, the
filtered set contains exactly the records satisfying the conjunction of
all five predicates (`specFilterPred`, worded as the spec does): the
free-text predicate holds iff the search string is, case-insensitively, a
substring of the record's title, keyword, or description (disjunction over
the three fields); each other filter is exact equality on its field; an
unset (empty) filter matches every record. -/
theorem applyFilters_exact (rows : List Row) (sr c p f st : String)
    (a : Row) :
    a ∈ applyFilters rows sr c p f st ↔
      a ∈ rows ∧ specFilterPred sr c p f st a := by
  simp only [applyFilters, List.mem_filter]
  refine and_congr Iff.rfl ?_
  simp only [Bool.and_eq_true, Bool.or_eq_true, beq_iff_eq,
    Bool.not_eq_true', specFilterPred, and_assoc, or_assoc]
  refine and_congr ?_ Iff.rfl
  by_cases hsr : sr = ""
  · subst hsr
    exact iff_of_true (Or.inl rfl) (Or.inl rfl)
  · have hsr2 : lowerStr sr ≠ "" :=
      fun h2 => hsr ((lowerStr_eq_empty_iff sr).mp h2)
    have hdat : (lowerStr sr).data ≠ [] := string_ne_empty_data hsr2
    refine or_congr (by simp [lowerStr_eq_empty_iff])
      (or_congr Iff.rfl (or_congr ?_ ?_))
    · cases hk : a.keyword with
      | none =>
        simp
      | some k =>
        constructor
        · intro hlhs
          rw [Bool.and_eq_true] at hlhs
          exact ⟨k, rfl, hlhs.2⟩
        · rintro ⟨k', hk', hi⟩
          injection hk' with hkk
          subst hkk
          rw [Bool.and_eq_true]
          refine ⟨?_, hi⟩
          by_cases h0 : k = ""
          · subst h0
            cases hld : (lowerStr sr).data with
            | nil => exact absurd hld hdat
            | cons x xs =>
              have hi2 : (lowerStr sr).data.isEmpty = true := hi
              rw [hld] at hi2
              cases hi2
          · simp [h0]
    · cases hdn : a.description with
      | none =>
        simp
      | some d =>
        constructor
        · intro hlhs
          rw [Bool.and_eq_true] at hlhs
          exact ⟨d, rfl, hlhs.2⟩
        · rintro ⟨d', hd', hi⟩
          injection hd' with hdd
          subst hdd
          rw [Bool.and_eq_true]
          refine ⟨?_, hi⟩
          by_cases h0 : d = ""
          · subst h0
            cases hld : (lowerStr sr).data with
            | nil => exact absurd hld hdat
            | cons x xs =>
              have hi2 : (lowerStr sr).data.isEmpty = true := hi
              rw [hld] at hi2
              cases hi2
          · simp [h0]

end SpeakFlow
